import Mathlib

/-!
Verification of the tasmotizer flashing orchestration (`tasmotizer.py`).

The development shallowly embeds the orchestration core of the program:
`ESPWorker.execute` / `ESPWorker.stop` (the worker that drives the external
esptool driver), the `FlashingDialog` exit paths (`abort`, `accept`, `error`),
the download progress scaling (`updateBinProgress`), the terminal-outcome
presentation in `Tasmotizer.start_process`, and the serial IP extractor
(`Tasmotizer.showCurrentIP`).  Pure data flow is modelled directly; the
external driver (esptool) is modelled by an environment that says whether each
invocation raises, and signal emission is modelled by returning the list of
emitted signals in order.
-/

namespace Tasmotizer

/-- Signals emitted by `ESPWorker` during `execute` (pyqtSignal declarations
`finished`, `port_error(str)`, `backup_start` at the top of the class). -/
inductive Signal
  | backup_start
  | port_error (e : String)
  | finished
deriving DecidableEq, Repr

/-- State of `ESPWorker.__init__`: port, bin_file, the three stage flags, and the
per-instance `continue_flag` initialised to `True`. -/
structure ESPWorker where
  port : String
  bin_file : String
  backup : Bool
  erase : Bool
  verify : Bool
  continue_flag : Bool := true
deriving DecidableEq, Repr

/-- Behaviour of the external esptool driver for one run: whether the
`esptool.main` call for the backup command raises (and with what message
`str(e)` formats to), and likewise for the write command.  `none` means the
call returns normally. -/
structure DriverEnv where
  backupError : Option String
  writeError : Option String
deriving DecidableEq, Repr

/-- A timestamp as produced by `datetime.now()`, to the fields used by
`strftime("%Y%m%d_%H%M%S")`. -/
structure DateTime where
  year : Nat
  month : Nat
  day : Nat
  hour : Nat
  minute : Nat
  second : Nat
deriving DecidableEq, Repr

/-- Decimal digit character for `n % 10`. -/
def digitChar (n : Nat) : Char := Char.ofNat (48 + n % 10)

/-- Two-digit zero-padded decimal rendering, as strftime's `%m`, `%d`, `%H`,
`%M`, `%S` produce for their in-range values. -/
def pad2 (n : Nat) : List Char := [digitChar (n / 10), digitChar n]

/-- Four-digit zero-padded decimal rendering, as strftime's `%Y` produces for
years below 10000 (the range `datetime.now()` yields in practice). -/
def pad4 (n : Nat) : List Char :=
  [digitChar (n / 1000), digitChar (n / 100), digitChar (n / 10), digitChar n]

/-- Rendering of `datetime.now().strftime("%Y%m%d_%H%M%S")`. -/
def timestampStr (t : DateTime) : List Char :=
  pad4 t.year ++ pad2 t.month ++ pad2 t.day ++ ['_']
    ++ pad2 t.hour ++ pad2 t.minute ++ pad2 t.second

/-- The backup file name `"backup_" + strftime + ".bin"` built in
`ESPWorker.execute`. -/
def backupFilename (t : DateTime) : String :=
  String.mk ("backup_".data ++ timestampStr t ++ ".bin".data)

/-- The list `command_base` as built in `ESPWorker.execute`. -/
def command_base (w : ESPWorker) : List String :=
  ["--chip", "esp8266", "--port", w.port, "--baud", "115200"]

/-- The list `command_backup` as built in `ESPWorker.execute`. -/
def command_backup (t : DateTime) : List String :=
  ["--after", "no_reset", "read_flash", "0x00000", "0x100000", backupFilename t]

/-- The list `command_write` as built in `ESPWorker.execute`. -/
def command_write (w : ESPWorker) : List String :=
  ["--after", "soft_reset", "write_flash", "--flash_mode", "dout",
   "--flash_size", "1MB", "0x00000", w.bin_file]

/-- Observable trace of one `ESPWorker.execute` call: the signals emitted in
order, the argument lists passed to `esptool.main` in order, and the values
written to the process-wide `esptool.sw` continue flag in order. -/
structure RunTrace where
  signals : List Signal
  driverCalls : List (List String)
  swWrites : List Bool
deriving DecidableEq, Repr

/-- Translation of `ESPWorker.execute`, line for line.  The method first writes `True` to the
process-wide `esptool.sw` continue flag, then builds the command lists; if
`self.backup and self.continue_flag` it emits `backup_start`, calls
`esptool.main` on the backup command, and on a raised `FatalError` /
`SerialException` emits `port_error(str(e))`; then, independently of the
backup outcome, if `self.continue_flag` it calls `esptool.main` on the write
command (with `--erase-all` appended when `erase`, `verify` when `verify`) and
emits `finished` on success or `port_error(str(e))` on a raised error.
`execute` itself never assigns `self.continue_flag`; only `stop` does. -/
def ESPWorker.execute (w : ESPWorker) (env : DriverEnv) (t : DateTime) : RunTrace :=
  let backupPart : RunTrace :=
    if w.backup && w.continue_flag then
      let call := command_base w ++ command_backup t
      match env.backupError with
      | none => ⟨[Signal.backup_start], [call], []⟩
      | some e => ⟨[Signal.backup_start, Signal.port_error e], [call], []⟩
    else ⟨[], [], []⟩
  let writePart : RunTrace :=
    if w.continue_flag then
      let call := command_base w ++ command_write w
        ++ (if w.erase then ["--erase-all"] else [])
        ++ (if w.verify then ["verify"] else [])
      match env.writeError with
      | none => ⟨[Signal.finished], [call], []⟩
      | some e => ⟨[Signal.port_error e], [call], []⟩
    else ⟨[], [], []⟩
  ⟨backupPart.signals ++ writePart.signals,
   backupPart.driverCalls ++ writePart.driverCalls,
   [true] ++ backupPart.swWrites ++ writePart.swWrites⟩

/-- Translation of `ESPWorker.stop`: sets `self.continue_flag = False` and writes `False` to
the process-wide `esptool.sw` continue flag.  Returns the updated worker and
the list of writes made to the process-wide flag. -/
def ESPWorker.stop (w : ESPWorker) : ESPWorker × List Bool :=
  ({ w with continue_flag := false }, [false])

/-- A signal is terminal when it reports the run's outcome: `finished`
(success) or `port_error` (failure). -/
def Signal.isTerminal : Signal → Bool
  | .finished => true
  | .port_error _ => true
  | .backup_start => false

/-- Number of terminal signals emitted in a trace. -/
def terminalCount (tr : RunTrace) : Nat :=
  (tr.signals.filter Signal.isTerminal).length

/-- Whether a trace contains an invocation of the write_flash driver
operation. -/
def writeInvoked (tr : RunTrace) : Bool :=
  tr.driverCalls.any (fun c => c.contains "write_flash")

/-- A sample worker: backup requested, no erase, no verify, fresh
continue flag. -/
def sampleWorker : ESPWorker :=
  { port := "COM1", bin_file := "tasmota.bin", backup := true,
    erase := false, verify := false, continue_flag := true }

/-- A driver environment in which the backup esptool invocation raises and the
write invocation succeeds. -/
def backupFailsEnv : DriverEnv :=
  { backupError := some "Timed out waiting for packet header", writeError := none }

/-- A fixed sample timestamp. -/
def sampleTime : DateTime :=
  { year := 2020, month := 3, day := 14, hour := 15, minute := 9, second := 26 }

/-- Claim C1, counterexample: with `doBackup = true` and a backup esptool
invocation that raises, the write esptool invocation is still performed in the
same run — `execute` guards the write block only on `self.continue_flag`,
which a backup failure does not clear. -/
theorem C1_counterexample :
    writeInvoked (sampleWorker.execute backupFailsEnv sampleTime) = true := by
  decide

/-- Claim C1, amended: a backup driver failure does not prevent the write
driver call.  The write esptool invocation is performed exactly when the
worker's `continue_flag` is still set (no stop requested), regardless of the
backup flag and of whether the backup invocation raised. -/
theorem C1_amended (w : ESPWorker) (env : DriverEnv) (t : DateTime) :
    writeInvoked (w.execute env t) = w.continue_flag := by
  cases hc : w.continue_flag <;> cases hb : w.backup <;>
    cases he : env.backupError <;> cases hw : env.writeError <;>
      simp [ESPWorker.execute, writeInvoked, hc, hb, he, hw,
            command_base, command_backup, command_write]

/-- Claim C2, counterexample: a run in which the backup invocation raises and
the write invocation succeeds emits two terminal signals, `port_error` for the
backup and `finished` for the write — not exactly one. -/
theorem C2_counterexample :
    terminalCount (sampleWorker.execute backupFailsEnv sampleTime) = 2 := by
  decide

/-- Claim C2, amended: one terminal signal is emitted per attempted stage,
not per run: a `port_error` when the backup stage was attempted and raised,
plus (independently) a `finished` or `port_error` for the write stage whenever
`continue_flag` is set — so a run can emit up to two terminal signals. -/
theorem C2_amended (w : ESPWorker) (env : DriverEnv) (t : DateTime) :
    terminalCount (w.execute env t) =
      (if w.backup && w.continue_flag && env.backupError.isSome then 1 else 0)
        + (if w.continue_flag then 1 else 0) := by
  cases hc : w.continue_flag <;> cases hb : w.backup <;>
    cases he : env.backupError <;> cases hw : env.writeError <;>
      simp [ESPWorker.execute, terminalCount, Signal.isTerminal, hc, hb, he, hw]

/-- Claim C3, counterexample: the worker itself writes the process-wide
continue flag — the first statement of `execute` writes `True` ("run") to
`esptool.sw`, so the token is not written only by the stop path nor only to
the stop-requested value. -/
theorem C3_counterexample :
    (sampleWorker.execute backupFailsEnv sampleTime).swWrites = [true] := by
  decide

/-- Claim C3, amended: the stop path writes the shared flag exactly once, to
the stop-requested value `false`, and clears the worker's own
`continue_flag`; but the worker is not read-only on the shared token: every
`execute` call writes `true` ("run") to the process-wide flag at run start. -/
theorem C3_amended (w : ESPWorker) (env : DriverEnv) (t : DateTime) :
    (w.execute env t).swWrites = [true]
      ∧ w.stop.2 = [false]
      ∧ w.stop.1.continue_flag = false := by
  refine ⟨?_, rfl, rfl⟩
  cases hc : w.continue_flag <;> cases hb : w.backup <;>
    cases he : env.backupError <;> cases hw : env.writeError <;>
      simp [ESPWorker.execute, hc, hb, he, hw]

/-- Claim C4, counterexample: there is no re-invocation guard.  Invoking
`execute` a second time on the same worker instance (whose fields, including
`continue_flag`, are untouched by the first run) performs driver calls again
and raises no `AlreadyRun` error — the second run's trace is identical to the
first and contains two esptool invocations. -/
theorem C4_counterexample :
    (sampleWorker.execute backupFailsEnv sampleTime).driverCalls
        = (sampleWorker.execute backupFailsEnv sampleTime).driverCalls
      ∧ (sampleWorker.execute backupFailsEnv sampleTime).driverCalls.length = 2 := by
  exact ⟨rfl, by decide⟩

/-- Claim C4, amended: the code keeps no has-run state, so a second
invocation of `execute` on the same instance simply runs the stage sequence
again: whenever the worker's `continue_flag` is still set it performs at least
one driver call, exactly as the first invocation did. -/
theorem C4_amended (w : ESPWorker) (env : DriverEnv) (t : DateTime)
    (h : w.continue_flag = true) :
    (w.execute env t).driverCalls ≠ [] := by
  cases hb : w.backup <;> cases he : env.backupError <;> cases hw : env.writeError <;>
    simp [ESPWorker.execute, h, hb, he, hw]

/-- Witness for C4_amended at a concrete worker. -/
theorem C4_witness :
    (sampleWorker.execute backupFailsEnv sampleTime).driverCalls ≠ [] :=
  C4_amended sampleWorker backupFailsEnv sampleTime rfl

/-- Translation of `FlashingDialog.updateBinProgress(recv, total)`: sets the progress bar to
`recv // total * 100`, i.e. `(recv // total) * 100` by Python precedence.  A
zero `total` makes the division raise `ZeroDivisionError`, modelled as the
error branch. -/
def updateBinProgress (recv total : Nat) : Except String Nat :=
  if total = 0 then Except.error "ZeroDivisionError"
  else Except.ok (recv / total * 100)

/-- Claim C5, counterexample: at `recv = 50`, `total = 100` the code reports
`(50 / 100) * 100 = 0`, not `floor(50 * 100 / 100) = 50`; and at `total = 0`
the code raises a `ZeroDivisionError` instead of computing no percentage. -/
theorem C5_counterexample :
    updateBinProgress 50 100 = Except.ok 0
      ∧ (50 * 100) / 100 = 50
      ∧ updateBinProgress 50 0 = Except.error "ZeroDivisionError" :=
  ⟨rfl, rfl, rfl⟩

/-- Claim C5, amended: for `total > 0` the reported value is
`(recv / total) * 100` — it stays `0` for every `recv < total` and only jumps
in steps of 100 once `recv` reaches a full multiple of `total` — and a zero
`total` raises `ZeroDivisionError` rather than leaving progress
indeterminate. -/
theorem C5_amended (recv total : Nat) (h : 0 < total) :
    updateBinProgress recv total = Except.ok (recv / total * 100)
      ∧ (recv < total → updateBinProgress recv total = Except.ok 0)
      ∧ updateBinProgress recv 0 = Except.error "ZeroDivisionError" := by
  refine ⟨?_, ?_, rfl⟩
  · simp [updateBinProgress, Nat.pos_iff_ne_zero.mp h]
  · intro hlt
    simp [updateBinProgress, Nat.pos_iff_ne_zero.mp h, Nat.div_eq_of_lt hlt]

/-- Witness for C5_amended at `recv = 50`, `total = 100`. -/
theorem C5_witness :
    updateBinProgress 50 100 = Except.ok (50 / 100 * 100)
      ∧ (50 < 100 → updateBinProgress 50 100 = Except.ok 0)
      ∧ updateBinProgress 50 0 = Except.error "ZeroDivisionError" :=
  C5_amended 50 100 (by decide)

/-- The message box chosen at the end of `Tasmotizer.start_process` after the
flashing dialog closes. -/
inductive Presented
  | success
  | errorBox (msg : String)
  | abortedBox
deriving DecidableEq, Repr

/-- End of `Tasmotizer.start_process`: if the dialog was accepted, show the
success box; otherwise `if dlg.error_msg:` — Python truthiness, under which
both `None` and the empty string are falsy — show the error box with the
detail, else show the "aborted by the user" box. -/
def start_process_outcome (accepted : Bool) (error_msg : Option String) : Presented :=
  if accepted then Presented.success
  else
    match error_msg with
    | some e => if e = "" then Presented.abortedBox else Presented.errorBox e
    | none => Presented.abortedBox

/-- Claim C7, counterexample: a run that failed with an error whose message
formats to the empty string (`error_msg = some ""`) is presented as "aborted
by the user" — indistinguishable from a genuine user cancellation
(`error_msg = none`). -/
theorem C7_counterexample :
    start_process_outcome false (some "") = Presented.abortedBox
      ∧ start_process_outcome false none = Presented.abortedBox := by
  decide

/-- Claim C7, amended: Failed and Aborted are distinguishable only when the
failure's error message is non-empty: a rejected run with a non-empty
`error_msg` is presented as an error carrying that detail, a rejected run
with no `error_msg` is presented as a user abort, but a failure whose message
is the empty string is also presented as a user abort. -/
theorem C7_amended (e : String) (h : e ≠ "") :
    start_process_outcome false (some e) = Presented.errorBox e
      ∧ start_process_outcome false none = Presented.abortedBox
      ∧ start_process_outcome false (some "") = Presented.abortedBox := by
  refine ⟨?_, rfl, rfl⟩
  simp [start_process_outcome, h]

/-- Witness for C7_amended at a concrete non-empty message. -/
theorem C7_witness :
    start_process_outcome false (some "A fatal error occurred")
        = Presented.errorBox "A fatal error occurred"
      ∧ start_process_outcome false none = Presented.abortedBox
      ∧ start_process_outcome false (some "") = Presented.abortedBox :=
  C7_amended "A fatal error occurred" (by decide)

/-- Result of a `FlashingDialog` exit path: the worker as left by the path,
the writes the path made to the process-wide flag, how long the caller was
blocked in `QThread.wait` (the thread needs `workerRemainingMs` more
milliseconds to finish on its own), and the dialog result. -/
structure TeardownResult where
  worker : ESPWorker
  swWrites : List Bool
  blockedMs : Nat
  accepted : Bool
deriving DecidableEq, Repr

/-- Translation of `FlashingDialog.abort`: `self.espworker.stop(); self.espthread.quit();
self.espthread.wait(2000); self.reject()`.  `wait(2000)` blocks until the
thread finishes or 2000 ms elapse, whichever is first. -/
def FlashingDialog.abort (w : ESPWorker) (workerRemainingMs : Nat) : TeardownResult :=
  let s := w.stop
  { worker := s.1, swWrites := s.2,
    blockedMs := min workerRemainingMs 2000, accepted := false }

/-- Translation of `FlashingDialog.accept`: `self.espworker.stop(); self.espthread.quit();
self.espthread.wait(2000); self.done(QDialog.Accepted)` — the same teardown
as `abort`, ending with an accepted dialog result. -/
def FlashingDialog.accept (w : ESPWorker) (workerRemainingMs : Nat) : TeardownResult :=
  let s := w.stop
  { worker := s.1, swWrites := s.2,
    blockedMs := min workerRemainingMs 2000, accepted := true }

/-- Translation of `FlashingDialog.error`: `self.error_msg = e; self.reject()` — it records
the message and rejects the dialog without calling `stop`, `quit` or `wait`.
Returns the stored message together with the exit-path result. -/
def FlashingDialog.error (w : ESPWorker) (e : String) : Option String × TeardownResult :=
  (some e,
   { worker := w, swWrites := [], blockedMs := 0, accepted := false })

/-- Claim C8: `abort` sets the cancellation token (both the worker's
`continue_flag` and, once, the process-wide flag, to stop-requested), blocks
the caller for at most the fixed 2000 ms grace period whatever the worker
still had left to do, and then unconditionally rejects the dialog, which —
with no error recorded by the abort path itself — is surfaced as the
aborted-by-the-user outcome. -/
theorem C8_abort_bounded (w : ESPWorker) (workerRemainingMs : Nat) :
    (FlashingDialog.abort w workerRemainingMs).worker.continue_flag = false
      ∧ (FlashingDialog.abort w workerRemainingMs).swWrites = [false]
      ∧ (FlashingDialog.abort w workerRemainingMs).blockedMs ≤ 2000
      ∧ (FlashingDialog.abort w workerRemainingMs).accepted = false
      ∧ start_process_outcome
          (FlashingDialog.abort w workerRemainingMs).accepted none
          = Presented.abortedBox := by
  exact ⟨rfl, rfl, Nat.min_le_right _ _, rfl, rfl⟩

/-- Claim C10, counterexample: not every exit path performs the teardown —
the `error` exit path (driver failure) rejects the dialog while leaving the
worker's `continue_flag` set, writing nothing to the process-wide flag and
never joining the thread. -/
theorem C10_counterexample :
    (FlashingDialog.error sampleWorker "boom").2.worker.continue_flag = true
      ∧ (FlashingDialog.error sampleWorker "boom").2.swWrites = [] := by
  decide

/-- Claim C10, amended: the `accept` and `abort` exit paths perform the
identical teardown — both stop the worker (so even a fully successful run
ends with the cancellation token set to stop-requested), write the
process-wide flag once to `false`, and join the thread with the same wait
bounded by 2000 ms — but the `error` exit path performs no teardown at all:
it leaves the worker untouched and blocks for 0 ms. -/
theorem C10_amended (w : ESPWorker) (workerRemainingMs : Nat) (e : String) :
    (FlashingDialog.accept w workerRemainingMs).worker
        = (FlashingDialog.abort w workerRemainingMs).worker
      ∧ (FlashingDialog.accept w workerRemainingMs).blockedMs
        = (FlashingDialog.abort w workerRemainingMs).blockedMs
      ∧ (FlashingDialog.accept w workerRemainingMs).worker.continue_flag = false
      ∧ (FlashingDialog.accept w workerRemainingMs).swWrites = [false]
      ∧ (FlashingDialog.accept w workerRemainingMs).blockedMs ≤ 2000
      ∧ (FlashingDialog.error w e).2.worker = w
      ∧ (FlashingDialog.error w e).2.blockedMs = 0 := by
  exact ⟨rfl, rfl, rfl, rfl, Nat.min_le_right _ _, rfl, rfl⟩

/-- Python `str.replace("\r\n", "")`: removes every non-overlapping CRLF
pair, scanning left to right. -/
def removeCRLF : List Char → List Char
  | [] => []
  | '\r' :: '\n' :: rest => removeCRLF rest
  | c :: rest => c :: removeCRLF rest

/-- Take up to `n` leading decimal digits: the greedy-match step of the regex
quantifier `\d{1,3}`. -/
def takeDigits : Nat → List Char → List Char × List Char
  | _, [] => ([], [])
  | 0, s => ([], s)
  | n + 1, c :: rest =>
    if c.isDigit then
      let p := takeDigits n rest
      (c :: p.1, p.2)
    else ([], c :: rest)

/-- Match `\d{1,3}` at the head of the input (greedy; fails when no leading
digit), returning the matched digits and the rest. -/
def matchIPNum (s : List Char) : Option (List Char × List Char) :=
  match takeDigits 3 s with
  | ([], _) => none
  | (d, r) => some (d, r)

/-- Match `\d{1,3}\.\d{1,3}\.\d{1,3}\.\d{1,3}` at the head of the input,
returning the matched text.  For this pattern greedy matching with the
maximal digit run is equivalent to the regex's backtracking semantics,
because a shorter digit run is always followed by a digit, never by the
required dot. -/
def matchIPQuad (s : List Char) : Option (List Char) :=
  match matchIPNum s with
  | none => none
  | some (d1, r1) =>
    match r1 with
    | '.' :: r1b =>
      match matchIPNum r1b with
      | none => none
      | some (d2, r2) =>
        match r2 with
        | '.' :: r2b =>
          match matchIPNum r2b with
          | none => none
          | some (d3, r3) =>
            match r3 with
            | '.' :: r3b =>
              match matchIPNum r3b with
              | none => none
              | some (d4, _) =>
                some (d1 ++ '.' :: (d2 ++ '.' :: (d3 ++ '.' :: d4)))
            | _ => none
        | _ => none
    | _ => none

/-- Drop a literal pattern from the head of the input; `none` when the input
does not start with it. -/
def dropLit : List Char → List Char → Option (List Char)
  | [], s => some s
  | _ :: _, [] => none
  | c :: p, d :: s => if c = d then dropLit p s else none

/-- Model of `re.search(r"IP address (?P<ip>\d{1,3}\.\d{1,3}\.\d{1,3}\.\d{1,3})", s)`:
scan start positions left to right, at each position require the literal
`"IP address "` followed by the dotted quad, and return the quad captured by
the group at the first (leftmost) match. -/
def searchIP : List Char → Option (List Char)
  | [] => none
  | c :: rest =>
    match dropLit "IP address ".data (c :: rest) with
    | some r =>
      match matchIPQuad r with
      | some ip => some ip
      | none => searchIP rest
    | none => searchIP rest

/-- State of the serial IP listener: `self.previous_reply`, whether
`self.port` is open, and the status-bar message last shown by the handler. -/
structure IPMonitor where
  previous_reply : List Char
  portOpen : Bool
  statusMessage : Option (List Char)
deriving DecidableEq, Repr

/-- Translation of `Tasmotizer.showCurrentIP`, the `readyRead` handler: decode
`previous_reply + current_reply`, strip CRLF pairs, regex-search for the IP
pattern; on a match show `"Device IP: <ip>"` and close the port; on no match
set `self.previous_reply = current_reply` (the current chunk only — the
previous buffer content is discarded). -/
def showCurrentIP (st : IPMonitor) (current_reply : List Char) : IPMonitor :=
  let reply := removeCRLF (st.previous_reply ++ current_reply)
  match searchIP reply with
  | some ip =>
    { st with statusMessage := some ("Device IP: ".data ++ ip), portOpen := false }
  | none => { st with previous_reply := current_reply }

/-- Feed successive `readyRead` chunks to the handler; once the port is
closed no further `readyRead` fires. -/
def processChunks (st : IPMonitor) (chunks : List (List Char)) : IPMonitor :=
  chunks.foldl (fun s c => if s.portOpen then showCurrentIP s c else s) st

/-- An IP pattern split across three read chunks. -/
def ipChunks : List (List Char) :=
  ["IP address 1".data, ".2.3".data, ".4".data]

/-- The listener's initial state: empty buffer, port open, no message. -/
def ipMonitor0 : IPMonitor :=
  { previous_reply := [], portOpen := true, statusMessage := none }

/-- Claim C6, counterexample: when the pattern arrives split across three
read chunks the extractor never finds it — the buffer keeps only the previous
chunk, not all incoming bytes — although the pattern does occur in the
concatenation of everything received. -/
theorem C6_counterexample :
    (processChunks ipMonitor0 ipChunks).statusMessage = none
      ∧ (processChunks ipMonitor0 ipChunks).portOpen = true
      ∧ searchIP (removeCRLF ipChunks.flatten) = some "1.2.3.4".data :=
  ⟨rfl, rfl, rfl⟩

/-- Claim C6, amended: the extractor buffers only the most recent chunk, so a
match is detected exactly when the pattern occurs in the CRLF-stripped
concatenation of the previous chunk and the current one (it can be missed
when split across three or more chunks); on a match it reports the first
(leftmost) matched address and closes the port, leaving the buffer as it
was. -/
theorem C6_amended (st : IPMonitor) (chunk ip : List Char)
    (h : searchIP (removeCRLF (st.previous_reply ++ chunk)) = some ip) :
    (showCurrentIP st chunk).statusMessage = some ("Device IP: ".data ++ ip)
      ∧ (showCurrentIP st chunk).portOpen = false
      ∧ (showCurrentIP st chunk).previous_reply = st.previous_reply := by
  simp [showCurrentIP, h]

/-- Witness for C6_amended: the pattern split across two consecutive chunks
is found. -/
theorem C6_witness :
    (showCurrentIP
        { previous_reply := "IP addre".data, portOpen := true, statusMessage := none }
        "ss 10.0.0.5 up".data).statusMessage
          = some ("Device IP: ".data ++ "10.0.0.5".data)
      ∧ (showCurrentIP
          { previous_reply := "IP addre".data, portOpen := true, statusMessage := none }
          "ss 10.0.0.5 up".data).portOpen = false
      ∧ (showCurrentIP
          { previous_reply := "IP addre".data, portOpen := true, statusMessage := none }
          "ss 10.0.0.5 up".data).previous_reply = "IP addre".data :=
  C6_amended
    { previous_reply := "IP addre".data, portOpen := true, statusMessage := none }
    "ss 10.0.0.5 up".data "10.0.0.5".data rfl

/-- The backup file naming convention of the spec:
`backup_<8 digits>_<6 digits>.bin`. -/
def backupNamePattern (name : String) : Prop :=
  ∃ date clock : List Char,
    name.data = "backup_".data ++ date ++ ['_'] ++ clock ++ ".bin".data
      ∧ date.length = 8
      ∧ clock.length = 6
      ∧ (date ++ clock).all Char.isDigit = true

/-- Every rendered decimal digit character is a digit. -/
theorem digitChar_isDigit (n : Nat) : (digitChar n).isDigit = true := by
  have h : ∀ k, k < 10 → (Char.ofNat (48 + k)).isDigit = true := by decide
  exact h (n % 10) (Nat.mod_lt _ (by norm_num))

/-- Both characters of a two-digit rendering are digits. -/
theorem pad2_digits (n : Nat) : (pad2 n).all Char.isDigit = true := by
  simp [pad2, digitChar_isDigit]

/-- All four characters of a four-digit rendering are digits. -/
theorem pad4_digits (n : Nat) : (pad4 n).all Char.isDigit = true := by
  simp [pad4, digitChar_isDigit]

/-- Claim C9: for every run with backup requested and no stop pending, the
driver is invoked exactly twice with exactly the specified parameters: first
the backup read of `0x100000` bytes from `0x00000` with `no_reset` into a
file named `backup_<YYYYMMDD>_<HHMMSS>.bin`, then the write to `0x00000` with
flash mode `dout`, flash size `1MB` and `soft_reset` (plus `--erase-all` /
`verify` exactly when those flags are set); and the backup file name matches
the timestamp pattern. -/
theorem C9_driver_parameters (w : ESPWorker) (env : DriverEnv) (t : DateTime)
    (hb : w.backup = true) (hc : w.continue_flag = true) :
    (w.execute env t).driverCalls =
      [["--chip", "esp8266", "--port", w.port, "--baud", "115200",
        "--after", "no_reset", "read_flash", "0x00000", "0x100000",
        backupFilename t],
       ["--chip", "esp8266", "--port", w.port, "--baud", "115200",
        "--after", "soft_reset", "write_flash", "--flash_mode", "dout",
        "--flash_size", "1MB", "0x00000", w.bin_file]
         ++ (if w.erase then ["--erase-all"] else [])
         ++ (if w.verify then ["verify"] else [])]
      ∧ backupNamePattern (backupFilename t) := by
  constructor
  · cases he : env.backupError <;> cases hw : env.writeError <;>
      simp [ESPWorker.execute, hb, hc, he, hw, command_base, command_backup, command_write]
  · refine ⟨pad4 t.year ++ pad2 t.month ++ pad2 t.day,
      pad2 t.hour ++ pad2 t.minute ++ pad2 t.second, ?_, ?_, ?_, ?_⟩
    · simp [backupFilename, timestampStr, String.mk]
    · simp [pad4, pad2]
    · simp [pad2]
    · simp [List.all_append, pad2_digits, pad4_digits]

/-- Witness for C9_driver_parameters at a concrete worker and timestamp,
together with the concrete backup file name it produces. -/
theorem C9_witness :
    ((sampleWorker.execute backupFailsEnv sampleTime).driverCalls =
      [["--chip", "esp8266", "--port", sampleWorker.port, "--baud", "115200",
        "--after", "no_reset", "read_flash", "0x00000", "0x100000",
        backupFilename sampleTime],
       ["--chip", "esp8266", "--port", sampleWorker.port, "--baud", "115200",
        "--after", "soft_reset", "write_flash", "--flash_mode", "dout",
        "--flash_size", "1MB", "0x00000", sampleWorker.bin_file]
         ++ (if sampleWorker.erase then ["--erase-all"] else [])
         ++ (if sampleWorker.verify then ["verify"] else [])]
      ∧ backupNamePattern (backupFilename sampleTime))
      ∧ backupFilename sampleTime = "backup_20200314_150926.bin" :=
  ⟨C9_driver_parameters sampleWorker backupFailsEnv sampleTime rfl rfl, by decide⟩

end Tasmotizer
